import Mathlib

/-!
Verification of the ASAPPyTools cftime core (asaptools/cftime/calendars.py,
asaptools/cftime/cftime.py, asaptools/cftime/datetime.py) against its
natural-language specification.  The Python code is shallowly embedded:
Python ints become Int, Python floats become Rat, Python None-or-int
becomes Option Int, and code paths that raise exceptions return the
error branch of Except.
-/

namespace ASAPPyTools

/-- Python truthiness of an optional integer: None and 0 are both falsy,
every other int is truthy.  This models the source conditions written as
if self._leap_year: and if year: (calendars.py lines 196, 232, 256, 279),
which treat the integer 0 the same as None. -/
def pyTruthy : Option Int → Bool
  | none => false
  | some v => v != 0

/-- State of a CalendarGeneric instance: the four fields stored by
CalendarGeneric.__init__ (calendars.py lines 204-208).  The derived
field _year_length (the sum of month_lengths) is not stored because it
is recomputable and unused by the claims. -/
structure PyCal where
  name : String
  month_lengths : List Int
  leap_year : Option Int
  leap_month : Option Int
deriving Repr, DecidableEq

/-- CalendarGeneric.__init__ (calendars.py lines 160-209), value checks
only (the isinstance type checks are made unrepresentable by the Int
typing of the embedding).  Faithful detail: the branch taken when
leap_year is truthy and leap_month is None (lines 197-199) assigns
err_msg but contains no raise statement, so construction succeeds on
that path; and the whole leap check is skipped when leap_year is 0,
because line 196 tests truthiness rather than is-not-None. -/
def CalendarGeneric_init (name : String) (month_lengths : List Int)
    (leap_year leap_month : Option Int) : Except String PyCal :=
  if month_lengths.length ≠ 12 then
    .error "Month lengths must be a tuple or list of length 12"
  else if pyTruthy leap_year then
    match leap_month with
    | none => .ok ⟨name, month_lengths, leap_year, leap_month⟩
    | some lm =>
      if lm < 1 ∨ 12 < lm then
        .error "Leap month must be an int in the range 1 to 12"
      else .ok ⟨name, month_lengths, leap_year, leap_month⟩
  else .ok ⟨name, month_lengths, leap_year, leap_month⟩

/-- CalendarGeneric.is_leap_year (calendars.py lines 217-235):
if self._leap_year and (year - self._leap_year) % 4 == 0.  When
leap_year is None or 0 the truthiness test fails and the method
returns False unconditionally.  Int.emod agrees with the Python %
operator for the positive modulus 4. -/
def is_leap_year (c : PyCal) (year : Int) : Bool :=
  pyTruthy c.leap_year && (year - c.leap_year.getD 0) % 4 == 0

/-- CalendarGeneric.days_in_month (calendars.py lines 237-259) together
with the range check inherited from Calendar.days_in_month (lines
106-109), which raises ValueError for month outside 1..12.  The
condition on line 256 is: if year and self.is_leap_year(year) and
month == self._leap_month, where the first conjunct is Python
truthiness (year = 0 behaves like None) and the last compares the int
month with the possibly-None leap_month (int == None is False). -/
def days_in_month (c : PyCal) (month : Int) (year : Option Int) : Except String Int :=
  if month < 1 ∨ 12 < month then
    .error "Month must be given as an int from 1 to 12"
  else if pyTruthy year && is_leap_year c (year.getD 0) && c.leap_month == some month then
    .ok (c.month_lengths.getD (month - 1).toNat 0 + 1)
  else
    .ok (c.month_lengths.getD (month - 1).toNat 0)

/-- Outcome of a named Calendar subclass constructor.  Every such
constructor in calendars.py (lines 359, 375, 392, 410, 466, 485, 528)
is written super(CalendarGeneric, self).__init__(args...).  In the MRO
of each subclass the class after CalendarGeneric is Calendar, which
defines no __init__, so the call resolves to object.__init__, which in
Python raises TypeError when it receives arguments and the class
overrides __init__ without overriding __new__.  CalendarGeneric.__init__
is therefore never executed; the arguments the source passes are kept
here as (ignored) parameters to record the data flow. -/
def object_init_excess (_name : String) (_month_lengths : List Int)
    (_leap_year _leap_month : Option Int) : Except String PyCal :=
  .error "object.__init__() takes no parameters"

/-- Month lengths shared by the Gregorian-like calendars (calendars.py
lines 394, 412 uses 29 for February, others 28). -/
def stdMonthLengths : List Int := [31, 28, 31, 30, 31, 30, 31, 31, 30, 31, 30, 31]

/-- CalendarNone.__init__ (calendars.py lines 355-359). -/
def CalendarNone_init : Except String PyCal :=
  object_init_excess "none" (List.replicate 12 0) none none

/-- Calendar360Day.__init__ (calendars.py lines 371-376). -/
def Calendar360Day_init : Except String PyCal :=
  object_init_excess "360_day" (List.replicate 12 30) none none

/-- Calendar365Day.__init__ (calendars.py lines 388-394). -/
def Calendar365Day_init : Except String PyCal :=
  object_init_excess "365_day" stdMonthLengths none none

/-- Calendar366Day.__init__ (calendars.py lines 406-412). -/
def Calendar366Day_init : Except String PyCal :=
  object_init_excess "366_day" [31, 29, 31, 30, 31, 30, 31, 31, 30, 31, 30, 31] none none

/-- CalendarJulian.__init__ (calendars.py lines 462-469). -/
def CalendarJulian_init : Except String PyCal :=
  object_init_excess "julian" stdMonthLengths (some 0) (some 2)

/-- CalendarProlepticGregorian.__init__ (calendars.py lines 481-488). -/
def CalendarProlepticGregorian_init : Except String PyCal :=
  object_init_excess "proleptic_gregorian" stdMonthLengths (some 0) (some 2)

/-- CalendarStandard.__init__ (calendars.py lines 524-531). -/
def CalendarStandard_init : Except String PyCal :=
  object_init_excess "standard" stdMonthLengths (some 0) (some 2)

/-- create_calendar (calendars.py lines 15-51): dispatch on the fixed
name list, otherwise fall through to CalendarGeneric with the keyword
arguments.  In Python the generic branch needs a month_lengths keyword;
calling it without one raises TypeError for the missing argument. -/
def create_calendar (name : String) (month_lengths : Option (List Int))
    (leap_year leap_month : Option Int) : Except String PyCal :=
  if name = "gregorian" ∨ name = "standard" then CalendarStandard_init
  else if name = "proleptic_gregorian" then CalendarProlepticGregorian_init
  else if name = "noleap" ∨ name = "365_day" then Calendar365Day_init
  else if name = "all_leap" ∨ name = "366_day" then Calendar366Day_init
  else if name = "360_day" then Calendar360Day_init
  else if name = "julian" then CalendarJulian_init
  else if name = "none" then CalendarNone_init
  else
    match month_lengths with
    | none => .error "__init__() missing required argument month_lengths"
    | some ml => CalendarGeneric_init name ml leap_year leap_month

/-- Raw date-time tuple held in DateTime._dttuple (datetime.py line 75):
(year, month, day, hour, minute, second, zone) with second and zone
stored as floats, embedded as rationals. -/
structure DTTuple where
  year : Int
  month : Int
  day : Int
  hour : Int
  minute : Int
  second : ℚ
  zone : ℚ
deriving Repr, DecidableEq

/-- Seconds overflow loop of normalize_datetime (calendars.py lines
303-305): while second >= 60.0: second -= 60.0; minute += 1. -/
def runSecHi (second : ℚ) (minute : Int) : ℚ × Int :=
  if h : 60 ≤ second then runSecHi (second - 60) (minute + 1)
  else (second, minute)
termination_by (Int.ceil second).toNat
decreasing_by
  have h2 : (60 : ℚ) ≤ (Int.ceil second : ℚ) := le_trans h (Int.le_ceil second)
  have h3 : (60 : ℤ) ≤ Int.ceil second := by exact_mod_cast h2
  have h4 : Int.ceil (second - 60) = Int.ceil second - 60 := by
    rw [show (60 : ℚ) = ((60 : ℤ) : ℚ) by norm_num, Int.ceil_sub_int]
  simp only [h4]
  omega

/-- Seconds borrow loop of normalize_datetime (calendars.py lines
306-308): while second < 0.0: second += 60.0; minute -= 1. -/
def runSecLo (second : ℚ) (minute : Int) : ℚ × Int :=
  if h : second < 0 then runSecLo (second + 60) (minute - 1)
  else (second, minute)
termination_by (Int.ceil (-second)).toNat
decreasing_by
  have h2 : (0 : ℤ) < Int.ceil (-second) := Int.ceil_pos.mpr (by linarith)
  have h4 : Int.ceil (-(second + 60)) = Int.ceil (-second) - 60 := by
    rw [show -(second + 60) = -second - ((60 : ℤ) : ℚ) by push_cast; ring, Int.ceil_sub_int]
  simp only [h4]
  omega

/-- Minutes overflow loop of normalize_datetime (calendars.py lines
311-313): while minute >= 60: minute -= 60; hour += 1. -/
def runMinHi (minute hour : Int) : Int × Int :=
  if h : 60 ≤ minute then runMinHi (minute - 60) (hour + 1)
  else (minute, hour)
termination_by minute.toNat
decreasing_by omega

/-- Minutes borrow loop of normalize_datetime (calendars.py lines
314-316): while minute < 0: minute += 60; hour -= 1. -/
def runMinLo (minute hour : Int) : Int × Int :=
  if h : minute < 0 then runMinLo (minute + 60) (hour - 1)
  else (minute, hour)
termination_by (-minute).toNat
decreasing_by omega

/-- Hours overflow loop of normalize_datetime (calendars.py lines
319-321): while hour >= 24: hour -= 24; day += 1. -/
def runHourHi (hour day : Int) : Int × Int :=
  if h : 24 ≤ hour then runHourHi (hour - 24) (day + 1)
  else (hour, day)
termination_by hour.toNat
decreasing_by omega

/-- Hours borrow loop of normalize_datetime (calendars.py lines
322-324), embedded exactly as written in the source: while hour < 0:
hour += 60; day -= 1.  The source adds 60 here, not the hour radix 24. -/
def runHourLo (hour day : Int) : Int × Int :=
  if h : hour < 0 then runHourLo (hour + 60) (day - 1)
  else (hour, day)
termination_by (-hour).toNat
decreasing_by omega

/-- Inner month overflow loop (calendars.py lines 330-332):
while month > 12: month -= 12; year += 1.  Returns (month, year). -/
def wrapMonthHi (month year : Int) : Int × Int :=
  if h : 12 < month then wrapMonthHi (month - 12) (year + 1)
  else (month, year)
termination_by month.toNat
decreasing_by omega

/-- Inner month borrow loop (calendars.py lines 336-338):
while month < 1: month += 12; year -= 1.  Returns (month, year). -/
def wrapMonthLo (month year : Int) : Int × Int :=
  if h : month < 1 then wrapMonthLo (month + 12) (year - 1)
  else (month, year)
termination_by (1 - month).toNat
decreasing_by omega

/-- Day overflow loop of normalize_datetime (calendars.py lines
327-332): while day > days_in_month(month, year): day -= that value;
month += 1; inner wrap of month past 12.  The loop condition itself
calls days_in_month, which raises when the current month is outside
1..12, so the error branch is produced before any iteration when the
raw month is out of range.  This loop need not terminate (the radix
days_in_month may be 0), so it takes a fuel bound on the number of
iterations and returns none when the bound is exhausted; none therefore
means the Python loop runs longer than the given fuel. -/
def normDayHi (c : PyCal) : Nat → Int → Int → Int → Option (Except String (Int × Int × Int))
  | fuel, year, month, day =>
    match days_in_month c month (some year) with
    | .error e => some (.error e)
    | .ok dim =>
      if dim < day then
        match fuel with
        | 0 => none
        | fuel' + 1 =>
          let my := wrapMonthHi (month + 1) year
          normDayHi c fuel' my.2 my.1 (day - dim)
      else some (.ok (year, month, day))

/-- Day borrow loop of normalize_datetime (calendars.py lines 333-338):
while day < 1: month -= 1; day += days_in_month(month, year); inner
wrap of month below 1.  days_in_month is called with the decremented
month before the wrap runs, so it raises whenever the decremented month
is 0 (a borrow across a year boundary).  Fueled like normDayHi. -/
def normDayLo (c : PyCal) : Nat → Int → Int → Int → Option (Except String (Int × Int × Int))
  | fuel, year, month, day =>
    if day < 1 then
      match fuel with
      | 0 => none
      | fuel' + 1 =>
        match days_in_month c (month - 1) (some year) with
        | .error e => some (.error e)
        | .ok dim =>
          let my := wrapMonthLo (month - 1) year
          normDayLo c fuel' my.2 my.1 (day + dim)
    else some (.ok (year, month, day))

/-- Day/month/year stage of normalize_datetime (calendars.py lines
326-338): the day overflow loop followed by the day borrow loop, on
the (year, month, day) triple. -/
def normalizeDays (c : PyCal) (fuel : Nat) (year month day : Int) :
    Option (Except String (Int × Int × Int)) :=
  match normDayHi c fuel year month day with
  | none => none
  | some (.error e) => some (.error e)
  | some (.ok ymd) => normDayLo c fuel ymd.1 ymd.2.1 ymd.2.2

/-- CalendarGeneric.normalize_datetime (calendars.py lines 284-341): the
carry stages applied in source order (seconds, minutes, hours, then the
day/month/year stage), with the zone passed through unchanged.  The
result is none when the fuel bound of a day loop is exhausted,
some (error e) when the Python code raises e, and some (ok t) when the
Python code rewrites the tuple to t. -/
def normalize_datetime (c : PyCal) (fuel : Nat) (t : DTTuple) :
    Option (Except String DTTuple) :=
  let sm := runSecHi t.second t.minute
  let sm2 := runSecLo sm.1 sm.2
  let mh := runMinHi sm2.2 t.hour
  let mh2 := runMinLo mh.1 mh.2
  let hd := runHourHi mh2.2 t.day
  let hd2 := runHourLo hd.1 hd.2
  match normalizeDays c fuel t.year t.month hd2.2 with
  | none => none
  | some (.error e) => some (.error e)
  | some (.ok ymd2) =>
    some (.ok ⟨ymd2.1, ymd2.2.1, ymd2.2.2, hd2.1, mh2.1, sm2.1, t.zone⟩)

/-- Termination of normalize_datetime on a given calendar and raw tuple:
some fuel bound suffices for both day loops, so the Python loops finish
(either rewriting the tuple or raising). -/
def NormTerminates (c : PyCal) (t : DTTuple) : Prop :=
  ∃ fuel r, normalize_datetime c fuel t = some r

/-- Generic calendar from the repository test suite setUp (calendarsTests.py
lines 16-21): name Cal #1, twelve 30-day months, no leap rule.  It is
constructible through the factory because unrecognized names take the
CalendarGeneric branch. -/
def cal1 : PyCal := ⟨"Cal #1", List.replicate 12 30, none, none⟩

/-- Generic calendar from the repository test suite setUp (calendarsTests.py
lines 23-29): name Cal #2, explicit month lengths, leap_year 1992,
leap_month 1. -/
def cal2 : PyCal := ⟨"Cal #2", [31, 30, 31, 30, 31, 30, 31, 30, 30, 31, 30, 31], some 1992, some 1⟩

/-- Generic calendar carrying exactly the constructor arguments that
CalendarJulian.__init__ passes (calendars.py lines 466-469): standard
month lengths, leap_year 0, leap_month 2. -/
def julianCal : PyCal := ⟨"julian", stdMonthLengths, some 0, some 2⟩

/-- Calendar state carrying the field values CalendarNone.__init__
supplies (calendars.py line 359): twelve months of length 0. -/
def noneCal : PyCal := ⟨"none", List.replicate 12 0, none, none⟩

/-- Python numeric value stored in a date-time tuple: an int, or a
float embedded as a rational. -/
inductive PyNum where
  | int (i : Int)
  | float (q : ℚ)
deriving Repr, DecidableEq

/-- Python value that can appear among the positional constructor
arguments of CFDateTimeDelta: a number, or a tuple or list of numbers
(the mutability distinction between tuple and list is what decides
whether item assignment succeeds). -/
inductive PyVal where
  | num (n : PyNum)
  | tuple (xs : List PyNum)
  | list (xs : List PyNum)
deriving Repr, DecidableEq

/-- Python isinstance(x, (int, long)) on a stored number. -/
def PyNum.isInt : PyNum → Bool
  | .int _ => true
  | .float _ => false

/-- Python isinstance(x, (int, long)) on a constructor argument; a
tuple or list fails it. -/
def PyVal.isIntVal : PyVal → Bool
  | .num (.int _) => true
  | _ => false

/-- Python isinstance(x, (int, long, float)) on a constructor
argument. -/
def PyVal.isNumVal : PyVal → Bool
  | .num _ => true
  | _ => false

/-- Extract the number from a numeric constructor argument. -/
def PyVal.toNum : PyVal → Option PyNum
  | .num n => some n
  | _ => none

/-- __is_dttuple__ (cftime/cftime.py lines 124-148) applied to the
*args tuple of the constructor: has a length, length 6, first five
elements int, last element int or float. -/
def is_dttuple_args (xs : List PyVal) : Bool :=
  xs.length == 6 && (xs.take 5).all PyVal.isIntVal &&
    (xs.getD 5 (.num (.int 0))).isNumVal

/-- __is_dttuple__ applied to a tuple or list of numbers: length 6 and
first five int (the last element is int or float by the typing of the
embedding). -/
def is_dttuple_nums (xs : List PyNum) : Bool :=
  xs.length == 6 && (xs.take 5).all PyNum.isInt

/-- __INDICES__ (cftime/cftime.py line 14). -/
def INDICES : List String := ["years", "months", "days", "hours", "minutes", "seconds"]

/-- __ALIASES__ (cftime/cftime.py lines 16-36). -/
def ALIASES : List (String × String) :=
  [("year", "years"), ("yrs", "years"), ("yr", "years"),
   ("month", "months"), ("mons", "months"), ("mon", "months"), ("mos", "months"),
   ("mo", "months"), ("day", "days"), ("d", "days"),
   ("hour", "hours"), ("hrs", "hours"), ("hr", "hours"), ("h", "hours"),
   ("minute", "minutes"), ("mins", "minutes"), ("min", "minutes"),
   ("second", "seconds"), ("secs", "seconds"), ("sec", "seconds"), ("s", "seconds")]

/-- alias_to_unit (cftime/cftime.py lines 42-67): map a unit alias to
its standard name, raising ValueError when unrecognized.  Unlike
timeunits.find_unit, it does not lower-case its input. -/
def alias_to_unit (ualias : String) : Except String String :=
  if INDICES.contains ualias then .ok ualias
  else
    match ALIASES.lookup ualias with
    | some u => .ok u
    | none => .error ("Unrecognized unit name " ++ ualias)

/-- __unit_to_index__ (cftime/cftime.py lines 73-90): the index of the
resolved standard name in __INDICES__. -/
def unit_to_index (ualias : String) : Except String Nat :=
  (alias_to_unit ualias).map INDICES.indexOf

/-- CFDateTimeDelta.__init__ (cftime/cftime.py lines 169-205).  dtlist
starts as the default mutable list of six int zeros; if the *args tuple
is itself a well-formed date-time tuple, dtlist becomes that immutable
tuple (line 190); if a single well-formed tuple or list was passed,
dtlist becomes it, keeping its kind.  Keyword arguments are then
applied in order: each resolves its unit name through
__unit_to_index__ (raising ValueError when unrecognized) and then runs
dtlist[uindex] = uvalue (line 197), which raises TypeError when dtlist
is a tuple.  Finally __is_dttuple__ is re-checked (raising ValueError)
and the tuple is stored.  The Bool of the intermediate state records
whether dtlist is a mutable list. -/
def CFDateTimeDelta_init (params : List PyVal) (kwargs : List (String × PyNum)) :
    Except String (List PyNum) :=
  let dtlist : Bool × List PyNum :=
    if is_dttuple_args params then (false, params.filterMap PyVal.toNum)
    else
      match params with
      | [PyVal.tuple xs] =>
        if is_dttuple_nums xs then (false, xs) else (true, List.replicate 6 (PyNum.int 0))
      | [PyVal.list xs] =>
        if is_dttuple_nums xs then (true, xs) else (true, List.replicate 6 (PyNum.int 0))
      | _ => (true, List.replicate 6 (PyNum.int 0))
  match kwargs.foldlM (fun (st : Bool × List PyNum) kv =>
      match unit_to_index kv.1 with
      | .error e => (Except.error e : Except String (Bool × List PyNum))
      | .ok uindex =>
        if st.1 then Except.ok (st.1, st.2.set uindex kv.2)
        else Except.error "tuple object does not support item assignment") dtlist with
  | .error e => .error e
  | .ok st =>
    if is_dttuple_nums st.2 then .ok st.2
    else .error "Failed to construct date-time tuple"

/-- Python + on numbers, with int-to-float promotion. -/
def PyNum.add : PyNum → PyNum → PyNum
  | .int a, .int b => .int (a + b)
  | .int a, .float b => .float (a + b)
  | .float a, .int b => .float (a + b)
  | .float a, .float b => .float (a + b)

/-- Python - on numbers, with int-to-float promotion. -/
def PyNum.sub : PyNum → PyNum → PyNum
  | .int a, .int b => .int (a - b)
  | .int a, .float b => .float (a - b)
  | .float a, .int b => .float (a - b)
  | .float a, .float b => .float (a - b)

/-- Python unary minus on numbers. -/
def PyNum.neg : PyNum → PyNum
  | .int a => .int (-a)
  | .float q => .float (-q)

/-- Python equality test other == 0 used by __radd__ (cftime/cftime.py
line 253). -/
def PyNum.eqZero : PyNum → Bool
  | .int i => i == 0
  | .float q => q == 0

/-- CFDateTimeDelta.__neg__ (cftime/cftime.py lines 220-222): build the
component-wise negated list and construct a new delta from it,
re-running the constructor checks. -/
def CFDateTimeDelta_neg (d : List PyNum) : Except String (List PyNum) :=
  CFDateTimeDelta_init [.list (d.map PyNum.neg)] []

/-- CFDateTimeDelta.__add__ (cftime/cftime.py lines 224-240) applied to
two delta states: zip the stored tuples with + and construct a new
delta from the resulting list. -/
def CFDateTimeDelta_add (a b : List PyNum) : Except String (List PyNum) :=
  CFDateTimeDelta_init [.list (List.zipWith PyNum.add a b)] []

/-- CFDateTimeDelta.__sub__ (cftime/cftime.py lines 277-293) applied to
two delta states. -/
def CFDateTimeDelta_sub (a b : List PyNum) : Except String (List PyNum) :=
  CFDateTimeDelta_init [.list (List.zipWith PyNum.sub a b)] []

/-- CFDateTimeDelta.__radd__ (cftime/cftime.py lines 242-257): when the
left operand equals 0 (how the built-in sum starts), construct a copy
from the stored tuple; otherwise delegate to __add__, which returns
NotImplemented for a non-delta operand and Python then raises
TypeError. -/
def CFDateTimeDelta_radd (other : PyNum) (d : List PyNum) : Except String (List PyNum) :=
  if other.eqZero then CFDateTimeDelta_init [.tuple d] []
  else .error "unsupported operand type for +"

theorem runSecHi_of_lt (second : ℚ) (minute : Int) (h : second < 60) :
    runSecHi second minute = (second, minute) := by
  unfold runSecHi
  rw [dif_neg (not_le.mpr h)]

theorem runSecLo_of_nonneg (second : ℚ) (minute : Int) (h : 0 ≤ second) :
    runSecLo second minute = (second, minute) := by
  unfold runSecLo
  rw [dif_neg (not_lt.mpr h)]

theorem runMinHi_of_lt (minute hour : Int) (h : minute < 60) :
    runMinHi minute hour = (minute, hour) := by
  unfold runMinHi
  rw [dif_neg (not_le.mpr h)]

theorem runMinLo_of_nonneg (minute hour : Int) (h : 0 ≤ minute) :
    runMinLo minute hour = (minute, hour) := by
  unfold runMinLo
  rw [dif_neg (not_lt.mpr h)]

theorem runHourHi_of_lt (hour day : Int) (h : hour < 24) :
    runHourHi hour day = (hour, day) := by
  unfold runHourHi
  rw [dif_neg (not_le.mpr h)]

theorem runHourLo_of_nonneg (hour day : Int) (h : 0 ≤ hour) :
    runHourLo hour day = (hour, day) := by
  unfold runHourLo
  rw [dif_neg (not_lt.mpr h)]

theorem runHourLo_step (hour day : Int) (h : hour < 0) :
    runHourLo hour day = runHourLo (hour + 60) (day - 1) := by
  conv_lhs => unfold runHourLo
  rw [dif_pos h]

theorem wrapMonthHi_of_le (month year : Int) (h : month ≤ 12) :
    wrapMonthHi month year = (month, year) := by
  unfold wrapMonthHi
  rw [dif_neg (not_lt.mpr h)]

theorem wrapMonthHi_step (month year : Int) (h : 12 < month) :
    wrapMonthHi month year = wrapMonthHi (month - 12) (year + 1) := by
  conv_lhs => unfold wrapMonthHi
  rw [dif_pos h]

theorem wrapMonthLo_of_ge (month year : Int) (h : 1 ≤ month) :
    wrapMonthLo month year = (month, year) := by
  unfold wrapMonthLo
  rw [dif_neg (not_lt.mpr h)]

theorem normDayHi_exit (c : PyCal) (fuel : Nat) (year month day dim : Int)
    (hdim : days_in_month c month (some year) = .ok dim) (h : day ≤ dim) :
    normDayHi c fuel year month day = some (.ok (year, month, day)) := by
  unfold normDayHi
  rw [hdim]
  simp [not_lt.mpr h]

theorem normDayLo_exit (c : PyCal) (fuel : Nat) (year month day : Int)
    (h : 1 ≤ day) :
    normDayLo c fuel year month day = some (.ok (year, month, day)) := by
  unfold normDayLo
  simp [not_lt.mpr h]

theorem normalizeDays_exit (c : PyCal) (fuel : Nat) (year month day dim : Int)
    (hdim : days_in_month c month (some year) = .ok dim)
    (hd1 : 1 ≤ day) (hd2 : day ≤ dim) :
    normalizeDays c fuel year month day = some (.ok (year, month, day)) := by
  unfold normalizeDays
  rw [normDayHi_exit c fuel year month day dim hdim hd2]
  exact normDayLo_exit c fuel year month day hd1

/-- C1: the claim asserts that normalize_datetime always lands every
component in its valid range, with the hour-borrow stage adding 24
while hour is negative.  The source (calendars.py line 323) adds 60
instead, so the raw tuple (2000, 1, 15, -1, 0, 0.0) normalizes to
hour 59, violating 0 <= hour < 24: the code contradicts the claim. -/
theorem normalize_hour_borrow_bug :
    normalize_datetime cal1 0 ⟨2000, 1, 15, -1, 0, 0, 0⟩ =
      some (.ok ⟨2000, 1, 14, 59, 0, 0, 0⟩) ∧ ¬ ((59 : Int) < 24) := by
  constructor
  · norm_num [normalize_datetime, runSecHi_of_lt, runSecLo_of_nonneg, runMinHi_of_lt,
      runMinLo_of_nonneg, runHourHi_of_lt, runHourLo_step, runHourLo_of_nonneg]
    rfl
  · norm_num

/-- C3: the claim asserts create_calendar succeeds on every recognized
name wth a round-tripping name().  In the source every named variant
constructor calls super(CalendarGeneric, self).__init__(...), which
resolves to object.__init__ and raises TypeError, so the factory raises
for all ten recognized spellings instead of returning a calendar. -/
theorem create_calendar_named_variants_raise :
    create_calendar "gregorian" none none none = .error "object.__init__() takes no parameters" ∧
    create_calendar "standard" none none none = .error "object.__init__() takes no parameters" ∧
    create_calendar "proleptic_gregorian" none none none = .error "object.__init__() takes no parameters" ∧
    create_calendar "noleap" none none none = .error "object.__init__() takes no parameters" ∧
    create_calendar "365_day" none none none = .error "object.__init__() takes no parameters" ∧
    create_calendar "all_leap" none none none = .error "object.__init__() takes no parameters" ∧
    create_calendar "366_day" none none none = .error "object.__init__() takes no parameters" ∧
    create_calendar "360_day" none none none = .error "object.__init__() takes no parameters" ∧
    create_calendar "julian" none none none = .error "object.__init__() takes no parameters" ∧
    create_calendar "none" none none none = .error "object.__init__() takes no parameters" :=
  ⟨rfl, rfl, rfl, rfl, rfl, rfl, rfl, rfl, rfl, rfl⟩

/-- C4: the claim asserts that a Generic calendar with reference
leap_year and leap_month reports year y as leap iff (y - leap_year)
mod 4 == 0, in particular with leap_year 0 (the Julian parameters),
making 1580 a leap year.  The source line 232 tests the truthiness of
self._leap_year, which is False for the int 0, so with the Julian
parameters is_leap_year returns False for every year, 1580 included,
even though (1580 - 0) mod 4 == 0: the code contradicts the claim. -/
theorem is_leap_year_zero_reference_bug :
    CalendarGeneric_init "julian" stdMonthLengths (some 0) (some 2) = .ok julianCal ∧
    is_leap_year julianCal 1580 = false ∧ ((1580 : Int) - 0) % 4 = 0 :=
  ⟨rfl, rfl, rfl⟩

/-- C5: the claim asserts that constructing a Generic calendar with
leap_year set and leap_month None raises.  In the source (calendars.py
lines 197-199) that branch assigns err_msg but has no raise statement,
so the constructor returns a calendar instance: the code contradicts
the claim (and its own dead err_msg assignment). -/
theorem leap_year_without_leap_month_accepted :
    CalendarGeneric_init "Cal" (List.replicate 12 30) (some 1992) none =
      .ok ⟨"Cal", List.replicate 12 30, some 1992, none⟩ :=
  rfl

/-- C6: the claim asserts days_in_month(month, year) adds the leap day
for every integer year (year 0 included) in which is_leap_year holds
and month is the leap month.  For the test-suite calendar Cal #2
(leap_year 1992, leap_month 1) year 0 is a leap year and month 1 is
the leap month, yet days_in_month(1, 0) returns the non-leap length 31
instead of 32, because line 256 tests the truthiness of year and the
int 0 is falsy: the code contradicts the claim. -/
theorem days_in_month_year_zero_bug :
    is_leap_year cal2 0 = true ∧ cal2.leap_month = some 1 ∧
    days_in_month cal2 1 (some 0) = .ok 31 ∧
    days_in_month cal2 1 none = .ok 31 :=
  ⟨rfl, rfl, rfl, rfl⟩

/-- C8: normalization is idempotent: a tuple already satisfying the
normalized invariants under its calendar is returned unchanged by
normalize_datetime, for any fuel bound (no loop iterates). -/
theorem normalize_idempotent (c : PyCal) (fuel : Nat)
    (y m d hr mi : Int) (s z : ℚ) (dim : Int)
    (hm1 : 1 ≤ m) (hm2 : m ≤ 12)
    (hdim : days_in_month c m (some y) = .ok dim)
    (hd1 : 1 ≤ d) (hd2 : d ≤ dim)
    (hh1 : 0 ≤ hr) (hh2 : hr < 24)
    (hmi1 : 0 ≤ mi) (hmi2 : mi < 60)
    (hs1 : 0 ≤ s) (hs2 : s < 60) :
    normalize_datetime c fuel ⟨y, m, d, hr, mi, s, z⟩ =
      some (.ok ⟨y, m, d, hr, mi, s, z⟩) := by
  simp only [normalize_datetime, runSecHi_of_lt s mi hs2, runSecLo_of_nonneg s mi hs1,
    runMinHi_of_lt mi hr hmi2, runMinLo_of_nonneg mi hr hmi1, runHourHi_of_lt hr d hh2,
    runHourLo_of_nonneg hr d hh1, normalizeDays_exit c fuel y m d dim hdim hd1 hd2]

/-- Witness for C8 at the spec test vector: the already-normalized
tuple (2021, 3, 2, 0, 0, 0.0) on the factory-built calendar Cal #1. -/
theorem normalize_idempotent_witness :
    normalize_datetime cal1 0 ⟨2021, 3, 2, 0, 0, 0, 0⟩ =
      some (.ok ⟨2021, 3, 2, 0, 0, 0, 0⟩) :=
  normalize_idempotent cal1 0 2021 3 2 0 0 0 0 30 (by norm_num) (by norm_num) rfl
    (by norm_num) (by norm_num) (by norm_num) (by norm_num) (by norm_num) (by norm_num)
    (by norm_num) (by norm_num)

theorem normDayHi_error (c : PyCal) (fuel : Nat) (year month day : Int) (e : String)
    (hdm : days_in_month c month (some year) = .error e) :
    normDayHi c fuel year month day = some (.error e) := by
  unfold normDayHi
  rw [hdm]

theorem normDayHi_zero (c : PyCal) (year month day dim : Int)
    (hdm : days_in_month c month (some year) = .ok dim) (hlt : dim < day) :
    normDayHi c 0 year month day = none := by
  unfold normDayHi
  rw [hdm]
  simp only [if_pos hlt]

theorem normDayHi_step (c : PyCal) (fuel : Nat) (year month day dim : Int)
    (hdm : days_in_month c month (some year) = .ok dim) (hlt : dim < day) :
    normDayHi c (fuel + 1) year month day =
      normDayHi c fuel (wrapMonthHi (month + 1) year).2 (wrapMonthHi (month + 1) year).1
        (day - dim) := by
  conv_lhs => unfold normDayHi
  rw [hdm]
  simp only [if_pos hlt]

theorem normDayLo_zero (c : PyCal) (year month day : Int) (hlt : day < 1) :
    normDayLo c 0 year month day = none := by
  unfold normDayLo
  simp only [if_pos hlt]

theorem normDayLo_error (c : PyCal) (fuel : Nat) (year month day : Int) (e : String)
    (hlt : day < 1) (hdm : days_in_month c (month - 1) (some year) = .error e) :
    normDayLo c (fuel + 1) year month day = some (.error e) := by
  unfold normDayLo
  simp only [if_pos hlt, hdm]

theorem normDayLo_step (c : PyCal) (fuel : Nat) (year month day dim : Int)
    (hlt : day < 1) (hdm : days_in_month c (month - 1) (some year) = .ok dim) :
    normDayLo c (fuel + 1) year month day =
      normDayLo c fuel (wrapMonthLo (month - 1) year).2 (wrapMonthLo (month - 1) year).1
        (day + dim) := by
  conv_lhs => unfold normDayLo
  simp only [if_pos hlt, hdm]

theorem days_in_month_pos (c : PyCal) (hlen : c.month_lengths.length = 12)
    (hpos : ∀ x ∈ c.month_lengths, 1 ≤ x) (m : Int) (yr : Option Int) (dim : Int)
    (hdim : days_in_month c m yr = .ok dim) : 1 ≤ dim := by
  unfold days_in_month at hdim
  split at hdim
  · exact absurd hdim (by simp)
  · rename_i hm
    push_neg at hm
    have hidx : (m - 1).toNat < c.month_lengths.length := by omega
    have hmem : c.month_lengths.getD (m - 1).toNat 0 ∈ c.month_lengths := by
      rw [List.getD_eq_getElem c.month_lengths 0 hidx]
      exact List.getElem_mem hidx
    have hx := hpos _ hmem
    split at hdim <;> (injection hdim with h; omega)

theorem days_in_month_noneCal (m y : Int) (h1 : 1 ≤ m) (h2 : m ≤ 12) :
    days_in_month noneCal m (some y) = .ok 0 := by
  unfold days_in_month
  rw [if_neg (by omega)]
  have hz : noneCal.month_lengths.getD (m - 1).toNat 0 = 0 := by
    show (List.replicate 12 (0 : Int)).getD (m - 1).toNat 0 = 0
    rw [List.getD_eq_getElem (List.replicate 12 (0 : Int)) 0 (by simp; omega)]
    exact List.getElem_replicate 0 (by simp; omega)
  have hcond : (pyTruthy (some y) && is_leap_year noneCal ((some y).getD 0)
      && noneCal.leap_month == some m) = false := by
    simp [noneCal, is_leap_year, pyTruthy]
  rw [hcond, hz]
  norm_num

theorem normDayHi_noneCal_diverges :
    ∀ (fuel : Nat) (y m : Int), 1 ≤ m → m ≤ 12 →
      normDayHi noneCal fuel y m 1 = none := by
  intro fuel
  induction fuel with
  | zero =>
    intro y m h1 h2
    exact normDayHi_zero noneCal y m 1 0 (days_in_month_noneCal m y h1 h2) (by norm_num)
  | succ f ih =>
    intro y m h1 h2
    rw [normDayHi_step noneCal f y m 1 0 (days_in_month_noneCal m y h1 h2) (by norm_num)]
    norm_num
    rcases lt_or_ge m 12 with hlt | hge
    · rw [wrapMonthHi_of_le (m + 1) y (by omega)]
      exact ih y (m + 1) (by omega) (by omega)
    · have hm12 : m = 12 := le_antisymm h2 hge
      subst hm12
      norm_num
      rw [wrapMonthHi_step 13 y (by norm_num)]
      norm_num
      rw [wrapMonthHi_of_le 1 (y + 1) (by norm_num)]
      exact ih (y + 1) 1 (by norm_num) (by norm_num)

theorem normDayHi_mono (c : PyCal) :
    ∀ (fuel fuel' : Nat) (y m d : Int) (r : Except String (Int × Int × Int)),
      fuel ≤ fuel' → normDayHi c fuel y m d = some r →
      normDayHi c fuel' y m d = some r := by
  intro fuel
  induction fuel with
  | zero =>
    intro fuel' y m d r _ h
    cases hdm : days_in_month c m (some y) with
    | error e =>
      rw [normDayHi_error c 0 y m d e hdm] at h
      rw [normDayHi_error c fuel' y m d e hdm]
      exact h
    | ok dim =>
      by_cases hlt : dim < d
      · rw [normDayHi_zero c y m d dim hdm hlt] at h
        exact Option.noConfusion h
      · rw [normDayHi_exit c 0 y m d dim hdm (by omega)] at h
        rw [normDayHi_exit c fuel' y m d dim hdm (by omega)]
        exact h
  | succ f ih =>
    intro fuel' y m d r hle h
    obtain ⟨f2, rfl⟩ : ∃ k, fuel' = k + 1 := ⟨fuel' - 1, by omega⟩
    cases hdm : days_in_month c m (some y) with
    | error e =>
      rw [normDayHi_error c (f + 1) y m d e hdm] at h
      rw [normDayHi_error c (f2 + 1) y m d e hdm]
      exact h
    | ok dim =>
      by_cases hlt : dim < d
      · rw [normDayHi_step c f y m d dim hdm hlt] at h
        rw [normDayHi_step c f2 y m d dim hdm hlt]
        exact ih f2 _ _ _ r (by omega) h
      · rw [normDayHi_exit c (f + 1) y m d dim hdm (by omega)] at h
        rw [normDayHi_exit c (f2 + 1) y m d dim hdm (by omega)]
        exact h

theorem normDayLo_mono (c : PyCal) :
    ∀ (fuel fuel' : Nat) (y m d : Int) (r : Except String (Int × Int × Int)),
      fuel ≤ fuel' → normDayLo c fuel y m d = some r →
      normDayLo c fuel' y m d = some r := by
  intro fuel
  induction fuel with
  | zero =>
    intro fuel' y m d r _ h
    by_cases hlt : d < 1
    · rw [normDayLo_zero c y m d hlt] at h
      exact Option.noConfusion h
    · rw [normDayLo_exit c 0 y m d (by omega)] at h
      rw [normDayLo_exit c fuel' y m d (by omega)]
      exact h
  | succ f ih =>
    intro fuel' y m d r hle h
    obtain ⟨f2, rfl⟩ : ∃ k, fuel' = k + 1 := ⟨fuel' - 1, by omega⟩
    by_cases hlt : d < 1
    · cases hdm : days_in_month c (m - 1) (some y) with
      | error e =>
        rw [normDayLo_error c f y m d e hlt hdm] at h
        rw [normDayLo_error c f2 y m d e hlt hdm]
        exact h
      | ok dim =>
        rw [normDayLo_step c f y m d dim hlt hdm] at h
        rw [normDayLo_step c f2 y m d dim hlt hdm]
        exact ih f2 _ _ _ r (by omega) h
    · rw [normDayLo_exit c (f + 1) y m d (by omega)] at h
      rw [normDayLo_exit c (f2 + 1) y m d (by omega)]
      exact h

theorem normDayHi_term (c : PyCal) (hlen : c.month_lengths.length = 12)
    (hpos : ∀ x ∈ c.month_lengths, 1 ≤ x) :
    ∀ (n : Nat) (d : Int), d.toNat ≤ n → ∀ (y m : Int),
      ∃ fuel r, normDayHi c fuel y m d = some r := by
  intro n
  induction n with
  | zero =>
    intro d hd y m
    cases hdm : days_in_month c m (some y) with
    | error e => exact ⟨0, .error e, normDayHi_error c 0 y m d e hdm⟩
    | ok dim =>
      have h1 := days_in_month_pos c hlen hpos m (some y) dim hdm
      exact ⟨0, .ok (y, m, d), normDayHi_exit c 0 y m d dim hdm (by omega)⟩
  | succ n ih =>
    intro d hd y m
    cases hdm : days_in_month c m (some y) with
    | error e => exact ⟨0, .error e, normDayHi_error c 0 y m d e hdm⟩
    | ok dim =>
      have h1 := days_in_month_pos c hlen hpos m (some y) dim hdm
      by_cases hlt : dim < d
      · obtain ⟨fuel, r, hr⟩ := ih (d - dim) (by omega)
          (wrapMonthHi (m + 1) y).2 (wrapMonthHi (m + 1) y).1
        refine ⟨fuel + 1, r, ?_⟩
        rw [normDayHi_step c fuel y m d dim hdm hlt]
        exact hr
      · exact ⟨0, .ok (y, m, d), normDayHi_exit c 0 y m d dim hdm (by omega)⟩

theorem normDayLo_term (c : PyCal) (hlen : c.month_lengths.length = 12)
    (hpos : ∀ x ∈ c.month_lengths, 1 ≤ x) :
    ∀ (n : Nat) (d : Int), (1 - d).toNat ≤ n → ∀ (y m : Int),
      ∃ fuel r, normDayLo c fuel y m d = some r := by
  intro n
  induction n with
  | zero =>
    intro d hd y m
    exact ⟨0, .ok (y, m, d), normDayLo_exit c 0 y m d (by omega)⟩
  | succ n ih =>
    intro d hd y m
    by_cases hlt : d < 1
    · cases hdm : days_in_month c (m - 1) (some y) with
      | error e => exact ⟨1, .error e, normDayLo_error c 0 y m d e hlt hdm⟩
      | ok dim =>
        have h1 := days_in_month_pos c hlen hpos (m - 1) (some y) dim hdm
        obtain ⟨fuel, r, hr⟩ := ih (d + dim) (by omega)
          (wrapMonthLo (m - 1) y).2 (wrapMonthLo (m - 1) y).1
        refine ⟨fuel + 1, r, ?_⟩
        rw [normDayLo_step c fuel y m d dim hlt hdm]
        exact hr
    · exact ⟨0, .ok (y, m, d), normDayLo_exit c 0 y m d (by omega)⟩

theorem normalizeDays_term (c : PyCal) (hlen : c.month_lengths.length = 12)
    (hpos : ∀ x ∈ c.month_lengths, 1 ≤ x) (y m d : Int) :
    ∃ fuel r, normalizeDays c fuel y m d = some r := by
  obtain ⟨f1, r1, h1⟩ := normDayHi_term c hlen hpos d.toNat d le_rfl y m
  cases r1 with
  | error e => exact ⟨f1, .error e, by unfold normalizeDays; rw [h1]⟩
  | ok ymd =>
    obtain ⟨f2, r2, h2⟩ := normDayLo_term c hlen hpos (1 - ymd.2.2).toNat ymd.2.2 le_rfl
      ymd.1 ymd.2.1
    refine ⟨max f1 f2, r2, ?_⟩
    unfold normalizeDays
    rw [normDayHi_mono c f1 (max f1 f2) y m d (.ok ymd) (le_max_left f1 f2) h1]
    exact normDayLo_mono c f2 (max f1 f2) ymd.1 ymd.2.1 ymd.2.2 r2 (le_max_right f1 f2) h2

/-- C2 (amended): normalization terminates for every calendar whose 12
month lengths are all positive, which covers every factory calendar
except the all-zero none calendar: some fuel bound makes both day
loops finish, because each iteration moves day by at least one toward
its range.  The fixed-radix seconds/minutes/hours loops are embedded
as total functions, which is their termination argument. -/
theorem normalize_terminates_of_pos_months (c : PyCal)
    (hlen : c.month_lengths.length = 12) (hpos : ∀ x ∈ c.month_lengths, 1 ≤ x)
    (t : DTTuple) : NormTerminates c t := by
  unfold NormTerminates
  rcases e1 : runSecHi t.second t.minute with ⟨s1, n1⟩
  rcases e2 : runSecLo s1 n1 with ⟨s2, n2⟩
  rcases e3 : runMinHi n2 t.hour with ⟨mn1, h1v⟩
  rcases e4 : runMinLo mn1 h1v with ⟨mn2, h2v⟩
  rcases e5 : runHourHi h2v t.day with ⟨h3v, d1⟩
  rcases e6 : runHourLo h3v d1 with ⟨h4v, d2⟩
  obtain ⟨fuel, r, h⟩ := normalizeDays_term c hlen hpos t.year t.month d2
  cases r with
  | error e =>
    exact ⟨fuel, .error e, by simp only [normalize_datetime, e1, e2, e3, e4, e5, e6, h]⟩
  | ok ymd =>
    exact ⟨fuel, .ok ⟨ymd.1, ymd.2.1, ymd.2.2, h4v, mn2, s2, t.zone⟩,
      by simp only [normalize_datetime, e1, e2, e3, e4, e5, e6, h]⟩

/-- Witness for C2 (amended) on the factory-built calendar Cal #1 and
a raw tuple with a negative hour. -/
theorem normalize_terminates_witness :
    NormTerminates cal1 ⟨2000, 1, 15, -1, 0, 0, 0⟩ :=
  normalize_terminates_of_pos_months cal1 (by decide) (by decide) _

/-- C2 counterexample: the claim includes the none calendar, whose
twelve month lengths are all 0, but there normalization does not
terminate: on the already-in-range raw tuple (2000, 1, 1, 0, 0, 0.0)
the day overflow loop condition day > days_in_month(month, year) reads
1 > 0 forever (day never decreases because the radix is 0), so no fuel
bound suffices. -/
theorem normalize_none_calendar_diverges :
    ¬ NormTerminates noneCal ⟨2000, 1, 1, 0, 0, 0, 0⟩ := by
  rintro ⟨fuel, r, hr⟩
  have hd : normalizeDays noneCal fuel 2000 1 1 = none := by
    unfold normalizeDays
    rw [normDayHi_noneCal_diverges fuel 2000 1 (by norm_num) (by norm_num)]
  have hnone : normalize_datetime noneCal fuel ⟨2000, 1, 1, 0, 0, 0, 0⟩ = none := by
    norm_num [normalize_datetime, runSecHi_of_lt, runSecLo_of_nonneg, runMinHi_of_lt,
      runMinLo_of_nonneg, runHourHi_of_lt, runHourLo_of_nonneg, hd]
  rw [hnone] at hr
  exact Option.noConfusion hr

theorem init_single_list_valid (xs : List PyNum) (h : is_dttuple_nums xs = true) :
    CFDateTimeDelta_init [.list xs] [] = .ok xs := by
  unfold CFDateTimeDelta_init
  simp [is_dttuple_args, h, List.foldlM, pure, Except.pure]

theorem init_single_tuple_valid (xs : List PyNum) (h : is_dttuple_nums xs = true) :
    CFDateTimeDelta_init [.tuple xs] [] = .ok xs := by
  unfold CFDateTimeDelta_init
  simp [is_dttuple_args, h, List.foldlM, pure, Except.pure]

theorem PyNum_neg_isInt (x : PyNum) : (PyNum.neg x).isInt = x.isInt := by
  cases x <;> rfl

theorem PyNum_neg_neg (x : PyNum) : PyNum.neg (PyNum.neg x) = x := by
  cases x <;> simp [PyNum.neg]

theorem is_dttuple_nums_map_neg (xs : List PyNum) :
    is_dttuple_nums (xs.map PyNum.neg) = is_dttuple_nums xs := by
  have hc : PyNum.isInt ∘ PyNum.neg = PyNum.isInt := by
    funext x
    cases x <;> rfl
  simp [is_dttuple_nums, ← List.map_take, List.all_map, hc]

theorem CFDateTimeDelta_neg_eq (xs : List PyNum) (h : is_dttuple_nums xs = true) :
    CFDateTimeDelta_neg xs = .ok (xs.map PyNum.neg) := by
  unfold CFDateTimeDelta_neg
  exact init_single_list_valid _ (by rw [is_dttuple_nums_map_neg]; exact h)

/-- C9: delta addition and subtraction are component-wise over the
stored 6-tuples, matching the spec examples (3,3,3,3,3,3) plus and
minus (2,2,2,2,2,2), and negation is self-inverse: for every valid
delta state d, -(-d) reconstructs a delta with the identical stored
tuple. -/
theorem delta_arithmetic (d : List PyNum) (hd : is_dttuple_nums d = true) :
    CFDateTimeDelta_add (List.replicate 6 (.int 3)) (List.replicate 6 (.int 2)) =
      .ok (List.replicate 6 (.int 5)) ∧
    CFDateTimeDelta_sub (List.replicate 6 (.int 3)) (List.replicate 6 (.int 2)) =
      .ok (List.replicate 6 (.int 1)) ∧
    Except.bind (CFDateTimeDelta_neg d) CFDateTimeDelta_neg = .ok d := by
  refine ⟨rfl, rfl, ?_⟩
  rw [CFDateTimeDelta_neg_eq d hd]
  show CFDateTimeDelta_neg (d.map PyNum.neg) = .ok d
  rw [CFDateTimeDelta_neg_eq _ (by rw [is_dttuple_nums_map_neg]; exact hd)]
  have hc2 : PyNum.neg ∘ PyNum.neg = id := by
    funext x
    cases x <;> simp [PyNum.neg]
  simp [List.map_map, hc2]

/-- Witness for C9 at the concrete delta (3,3,3,3,3,3). -/
theorem delta_arithmetic_witness :
    Except.bind (CFDateTimeDelta_neg (List.replicate 6 (PyNum.int 3))) CFDateTimeDelta_neg =
      .ok (List.replicate 6 (PyNum.int 3)) :=
  (delta_arithmetic (List.replicate 6 (.int 3)) rfl).2.2

/-- C7: the claim asserts that constructing a delta from a well-formed
positional 6-tuple together with a recognized unit keyword succeeds
with the keyword overriding the positional component.  In the source,
dtlist is bound to the immutable *args tuple (line 190), and the
keyword loop then runs dtlist[uindex] = uvalue (line 197), which
raises TypeError (tuple object does not support item assignment): the
code contradicts the claim and its own docstring (keyword arguments
overwrite parameters).  Keyword overriding works only when a single
mutable list is passed, as the second conjunct shows. -/
theorem delta_positional_kwargs_raise :
    CFDateTimeDelta_init
      [.num (.int 1), .num (.int 2), .num (.int 3), .num (.int 4), .num (.int 5), .num (.int 6)]
      [("years", .int 9)] = .error "tuple object does not support item assignment" ∧
    CFDateTimeDelta_init [.list [.int 1, .int 2, .int 3, .int 4, .int 5, .int 6]]
      [("years", .int 9)] = .ok [.int 9, .int 2, .int 3, .int 4, .int 5, .int 6] :=
  ⟨rfl, rfl⟩

/-- C10: reflected addition with the integer 0 succeeds for every
valid delta state and returns a new delta whose stored tuple equals
the original, so 0 acts as a left identity and the built-in sum over a
list of deltas works. -/
theorem delta_radd_zero_identity (d : List PyNum) (hd : is_dttuple_nums d = true) :
    CFDateTimeDelta_radd (.int 0) d = .ok d := by
  show CFDateTimeDelta_init [.tuple d] [] = .ok d
  exact init_single_tuple_valid d hd

/-- Witness for C10 at the concrete delta (1, 2, 3, 4, 5, 6.2). -/
theorem delta_radd_zero_identity_witness :
    CFDateTimeDelta_radd (.int 0) [.int 1, .int 2, .int 3, .int 4, .int 5, .float (31/5)] =
      .ok [.int 1, .int 2, .int 3, .int 4, .int 5, .float (31/5)] :=
  delta_radd_zero_identity _ rfl

end ASAPPyTools
